import Mathlib

/-!
# Price tracker: the price monitoring engine of `backend/server.js`

A shallow embedding of `scrapeAmazonPrice`, `scrapeFlipkartPrice`,
`checkPriceDrops` and the routes that check prices, delete records and read
the history, and theorems about them.

Modelling conventions.

* JavaScript numbers are `JSNum`: a finite double is idealised as an exact
  rational, next to `Infinity`, `-Infinity` and `NaN`.  Rounding of doubles,
  overflow of finite results and the sign of zero are not represented (a zero
  divisor is taken as `+0`).
* The values a price field can hold are `JSVal`: absent (`undefined`), `null`
  or a number, which is what a JSON request body parsed by the front end's
  `parseFloat` can put there.
* The object `priceHistory` is a dictionary from product id to timeline; keys
  inherited from `Object.prototype` are not represented.
* The network and the wall clock are inputs, collected in `World`; an instant
  is its number of milliseconds, which `toISOString` renders.  A sweep takes
  one world per position of `products`.
* A handler runs to its end before another starts.
-/

namespace PriceTracker

/-! ## JavaScript numbers -/

/-- A JavaScript number, finite doubles idealised as rationals. -/
inductive JSNum where
  | fin (q : ℚ)
  | posInf
  | negInf
  | nan
  deriving DecidableEq

namespace JSNum

/-- The `-` operator on numbers. -/
def sub : JSNum → JSNum → JSNum
  | fin x, fin y => fin (x - y)
  | nan, _ => nan
  | _, nan => nan
  | posInf, posInf => nan
  | negInf, negInf => nan
  | posInf, _ => posInf
  | negInf, _ => negInf
  | fin _, posInf => negInf
  | fin _, negInf => posInf

/-- The `/` operator on numbers; a zero divisor counts as `+0`. -/
def div : JSNum → JSNum → JSNum
  | fin x, fin y =>
    if y = 0 then (if x = 0 then nan else if 0 < x then posInf else negInf)
    else fin (x / y)
  | nan, _ => nan
  | _, nan => nan
  | fin _, posInf => fin 0
  | fin _, negInf => fin 0
  | posInf, fin y => if 0 ≤ y then posInf else negInf
  | negInf, fin y => if 0 ≤ y then negInf else posInf
  | posInf, posInf => nan
  | posInf, negInf => nan
  | negInf, posInf => nan
  | negInf, negInf => nan

/-- The `*` operator on numbers. -/
def mul : JSNum → JSNum → JSNum
  | fin x, fin y => fin (x * y)
  | nan, _ => nan
  | _, nan => nan
  | posInf, fin y => if y = 0 then nan else if 0 < y then posInf else negInf
  | negInf, fin y => if y = 0 then nan else if 0 < y then negInf else posInf
  | fin x, posInf => if x = 0 then nan else if 0 < x then posInf else negInf
  | fin x, negInf => if x = 0 then nan else if 0 < x then negInf else posInf
  | posInf, posInf => posInf
  | negInf, negInf => posInf
  | posInf, negInf => negInf
  | negInf, posInf => negInf

/-- The `<=` operator on numbers: false as soon as a side is `NaN`. -/
def le : JSNum → JSNum → Bool
  | nan, _ => false
  | _, nan => false
  | fin x, fin y => decide (x ≤ y)
  | negInf, _ => true
  | _, posInf => true
  | posInf, _ => false
  | fin _, negInf => false

/-- The `>` operator on numbers: false as soon as a side is `NaN`. -/
def gt : JSNum → JSNum → Bool
  | nan, _ => false
  | _, nan => false
  | fin x, fin y => decide (y < x)
  | posInf, posInf => false
  | posInf, _ => true
  | negInf, _ => false
  | fin _, negInf => true
  | fin _, posInf => false

/-- Truthiness of a number: `NaN` and zero are falsy. -/
def truthy : JSNum → Bool
  | nan => false
  | fin q => decide (q ≠ 0)
  | _ => true

end JSNum

/-- What a price field or a scraper result can hold. -/
inductive JSVal where
  | undefined
  | null
  | num (n : JSNum)
  deriving DecidableEq

namespace JSVal

/-- The abstract operation `ToNumber`, applied by `-`, `/`, `*`, `<=`, `>`. -/
def toNumber : JSVal → JSNum
  | undefined => JSNum.nan
  | null => JSNum.fin 0
  | num n => n

/-- Truthiness of a value, as tested by `&&` and `if`. -/
def truthy : JSVal → Bool
  | undefined => false
  | null => false
  | num n => n.truthy

end JSVal

/-! ## `Number.prototype.toFixed(1)` -/

/-- The string returned by `x.toFixed(1)`.  `fixed neg n` is the text made of
    a minus sign when `neg`, the decimal digits of `n / 10` and one fractional
    digit `n % 10`; `general x` is `Number::toString(x)`, which `toFixed`
    returns for a non-finite `x` and for `|x| ≥ 10^21`. -/
inductive FixedText where
  | fixed (neg : Bool) (n : ℕ)
  | general (x : JSNum)
  deriving DecidableEq

/-- The method `toFixed(1)`: after taking the sign off, the integer `n` with
    `n / 10` closest to `x`, the larger one on a tie. -/
def toFixed1 : JSNum → FixedText
  | JSNum.fin q =>
    let neg := decide (q < 0)
    let x := if q < 0 then -q else q
    if (10 : ℚ) ^ 21 ≤ x then FixedText.general (JSNum.fin q)
    else FixedText.fixed neg (Rat.floor (x * 10 + 1 / 2)).toNat
  | x => FixedText.general x

/-- The number a `toFixed(1)` string denotes. -/
def FixedText.value : FixedText → JSNum
  | FixedText.fixed neg n => JSNum.fin (if neg then -((n : ℚ) / 10) else (n : ℚ) / 10)
  | FixedText.general x => x

/-! ## The extractor -/

/-- A fetched page after `cheerio.load`: a selector is mapped to
    `$(selector).first().text()`, the empty string when nothing matches. -/
abbrev Doc := String → String

/-- The code points `String.prototype.trim` removes (WhiteSpace and
    LineTerminator of ECMAScript). -/
def isJsWhitespace (c : Char) : Bool :=
  c.toNat ∈ [0x9, 0xA, 0xB, 0xC, 0xD, 0x20, 0xA0, 0x1680, 0x2028, 0x2029, 0x202F, 0x205F,
    0x3000, 0xFEFF] || (0x2000 ≤ c.toNat && c.toNat ≤ 0x200A)

/-- The method `trim()`. -/
def trim (s : List Char) : List Char :=
  ((s.dropWhile isJsWhitespace).reverse.dropWhile isJsWhitespace).reverse

/-- The call `replace(/[^0-9.]/g, '')`: keeps the digits and the points. -/
def stripNonNumeric (s : List Char) : List Char :=
  s.filter fun c => c.isDigit || c == '.'

/-- The value of a run of decimal digits. -/
def digitsValue (ds : List Char) : ℕ :=
  ds.foldl (fun acc c => 10 * acc + (c.toNat - '0'.toNat)) 0

/-- The function `parseFloat` on a text made of digits and points only, which
    is all `stripNonNumeric` can hand it: the longest prefix of the form
    `digits`, `digits.digits` or `.digits` is read, and `NaN` is returned when
    that prefix has no digit. -/
def parseFloat (s : List Char) : JSNum :=
  let intPart := s.takeWhile Char.isDigit
  let fracPart :=
    match s.dropWhile Char.isDigit with
    | '.' :: t => t.takeWhile Char.isDigit
    | _ => []
  if intPart.isEmpty && fracPart.isEmpty then JSNum.nan
  else JSNum.fin ((digitsValue intPart : ℚ) + (digitsValue fracPart : ℚ) / 10 ^ fracPart.length)

/-- The condition `price && price > 0` (also `newPrice && newPrice > 0`). -/
def isPositivePrice (price : JSVal) : Bool :=
  price.truthy && price.toNumber.gt (JSNum.fin 0)

/-- The loop `for (const selector of selectors)` of both scrapers, started
    with the current value of `price`. -/
def scanSelectors (doc : Doc) : List String → JSVal → JSVal
  | [], price => price
  | selector :: rest, price =>
    let priceText := trim (doc selector).toList
    if priceText.isEmpty then scanSelectors doc rest price
    else
      let price := JSVal.num (parseFloat (stripNonNumeric priceText))
      if isPositivePrice price then price else scanSelectors doc rest price

/-- The selector list of `scrapeAmazonPrice`. -/
def amazonSelectors : List String :=
  [".a-price-whole", "#priceblock_ourprice", "#priceblock_dealprice", ".a-price .a-offscreen",
    "#price_inside_buybox"]

/-- The selector list of `scrapeFlipkartPrice`. -/
def flipkartSelectors : List String :=
  ["._30jeq3._16Jk6d", "._30jeq3", ".CEmiEU div", "._1vC4OE"]

/-- The function `scrapeAmazonPrice`.  `get url` is the outcome of
    `axios.get` followed by `cheerio.load`: `none` when either throws, which
    the `catch` block turns into `null`. -/
def scrapeAmazonPrice (get : String → Option Doc) (url : String) : JSVal :=
  match get url with
  | some doc => scanSelectors doc amazonSelectors JSVal.null
  | none => JSVal.null

/-- The function `scrapeFlipkartPrice`, with `get` as in `scrapeAmazonPrice`. -/
def scrapeFlipkartPrice (get : String → Option Doc) (url : String) : JSVal :=
  match get url with
  | some doc => scanSelectors doc flipkartSelectors JSVal.null
  | none => JSVal.null

/-! ## Products, history, alerts -/

/-- A tracked product, with the fields the engine reads or writes.  A URL
    field is `none` when the property is absent. -/
structure Product where
  id : String
  name : String
  amazonUrl : Option String
  flipkartUrl : Option String
  amazonPrice : JSVal
  flipkartPrice : JSVal
  deriving DecidableEq

/-- One entry of a product's price timeline; `date` is the instant, in
    milliseconds, that `toISOString` renders. -/
structure HistoryEntry where
  date : ℕ
  amazonPrice : JSVal
  flipkartPrice : JSVal
  deriving DecidableEq

/-- The object `priceHistory`: product id to timeline, `none` for a key that
    is not set. -/
abbrev PriceHistory := String → Option (List HistoryEntry)

/-- An alert record. -/
structure Alert where
  id : String
  productId : String
  productName : String
  platform : String
  oldPrice : JSVal
  newPrice : JSVal
  percentChange : FixedText
  date : ℕ
  deriving DecidableEq

/-- What one run of `checkPriceDrops` takes from outside: the pages the two
    requests return and the clock readings, in milliseconds, at each
    `Date.now()` and `new Date()` of the function body. -/
structure World where
  getAmazon : String → Option Doc
  getFlipkart : String → Option Doc
  amazonIdNow : ℕ
  amazonAlertDate : ℕ
  amazonHistoryDate : ℕ
  flipkartIdNow : ℕ
  flipkartAlertDate : ℕ
  flipkartHistoryDate : ℕ

/-- The local `alerts`, the product object and `priceHistory`, as they stand
    at a point of `checkPriceDrops`. -/
structure CheckState where
  alerts : List Alert
  product : Product
  priceHistory : PriceHistory

/-- A URL property that passes `if (product.amazonUrl)`: present and not the
    empty string. -/
def truthyUrl : Option String → Option String
  | some url => if url.isEmpty then none else some url
  | none => none

/-- The expression `((newPrice - oldPrice) / oldPrice) * 100`. -/
def percentChange (newPrice oldPrice : JSVal) : JSNum :=
  ((newPrice.toNumber.sub oldPrice.toNumber).div oldPrice.toNumber).mul (JSNum.fin 100)

/-- The test `percentChange <= -20`. -/
def qualifies (pct : JSNum) : Bool :=
  pct.le (JSNum.fin (-20))

/-- The assignment to a key of `priceHistory`. -/
def PriceHistory.set (h : PriceHistory) (id : String) (timeline : List HistoryEntry) :
    PriceHistory :=
  fun k => if k = id then some timeline else h k

/-- The timeline under `id` once `if (!priceHistory[id]) priceHistory[id] = []`
    has run. -/
def PriceHistory.timeline (h : PriceHistory) (id : String) : List HistoryEntry :=
  (h id).getD []

/-- The body of `if (newPrice && newPrice > 0)` in the Amazon block: the alert
    when the change qualifies, the new stored price, the pushed history entry. -/
def amazonUpdate (w : World) (s : CheckState) (newPrice : JSVal) : CheckState :=
  let oldPrice := s.product.amazonPrice
  let pct := percentChange newPrice oldPrice
  let alerts :=
    if qualifies pct then
      s.alerts ++ [{
        id := toString w.amazonIdNow ++ "-amazon"
        productId := s.product.id
        productName := s.product.name
        platform := "amazon"
        oldPrice := oldPrice
        newPrice := newPrice
        percentChange := toFixed1 pct
        date := w.amazonAlertDate }]
    else s.alerts
  let product := { s.product with amazonPrice := newPrice }
  let timeline := s.priceHistory.timeline product.id
  let priceHistory := s.priceHistory.set product.id (timeline ++ [{
    date := w.amazonHistoryDate
    amazonPrice := newPrice
    flipkartPrice := product.flipkartPrice }])
  { alerts := alerts, product := product, priceHistory := priceHistory }

/-- The block `// Check Amazon` of `checkPriceDrops`. -/
def checkAmazon (w : World) (s : CheckState) : CheckState :=
  match truthyUrl s.product.amazonUrl with
  | none => s
  | some url =>
    let newPrice := scrapeAmazonPrice w.getAmazon url
    if isPositivePrice newPrice then amazonUpdate w s newPrice else s

/-- The body of `if (newPrice && newPrice > 0)` in the Flipkart block: the
    alert when the change qualifies, the new stored price, and the history
    step, which writes into the last entry when there is one. -/
def flipkartUpdate (w : World) (s : CheckState) (newPrice : JSVal) : CheckState :=
  let oldPrice := s.product.flipkartPrice
  let pct := percentChange newPrice oldPrice
  let alerts :=
    if qualifies pct then
      s.alerts ++ [{
        id := toString w.flipkartIdNow ++ "-flipkart"
        productId := s.product.id
        productName := s.product.name
        platform := "flipkart"
        oldPrice := oldPrice
        newPrice := newPrice
        percentChange := toFixed1 pct
        date := w.flipkartAlertDate }]
    else s.alerts
  let product := { s.product with flipkartPrice := newPrice }
  let timeline := s.priceHistory.timeline product.id
  let priceHistory :=
    match timeline.getLast? with
    | some lastHistory =>
      s.priceHistory.set product.id
        (timeline.dropLast ++ [{ lastHistory with flipkartPrice := newPrice }])
    | none =>
      s.priceHistory.set product.id [{
        date := w.flipkartHistoryDate
        amazonPrice := product.amazonPrice
        flipkartPrice := newPrice }]
  { alerts := alerts, product := product, priceHistory := priceHistory }

/-- The block `// Check Flipkart` of `checkPriceDrops`. -/
def checkFlipkart (w : World) (s : CheckState) : CheckState :=
  match truthyUrl s.product.flipkartUrl with
  | none => s
  | some url =>
    let newPrice := scrapeFlipkartPrice w.getFlipkart url
    if isPositivePrice newPrice then flipkartUpdate w s newPrice else s

/-- The function `checkPriceDrops`: returns the new alerts, and the product
    and `priceHistory` as it leaves them. -/
def checkPriceDrops (w : World) (product : Product) (priceHistory : PriceHistory) : CheckState :=
  checkFlipkart w (checkAmazon w { alerts := [], product := product, priceHistory := priceHistory })

/-- The handler of `DELETE /api/alerts/:id`: the new value of `alerts`. -/
def deleteAlert (alerts : List Alert) (id : String) : List Alert :=
  alerts.filter fun a => a.id != id

/-! ## The two sources, for stating properties of both blocks at once -/

/-- The two shops `checkPriceDrops` looks at. -/
inductive Source where
  | amazon
  | flipkart
  deriving DecidableEq

namespace Source

/-- The `platform` string of the source's alerts. -/
def platform : Source → String
  | amazon => "amazon"
  | flipkart => "flipkart"

/-- The other source. -/
def other : Source → Source
  | amazon => flipkart
  | flipkart => amazon

/-- The URL property of the source. -/
def url (src : Source) (p : Product) : Option String :=
  match src with
  | amazon => p.amazonUrl
  | flipkart => p.flipkartUrl

/-- The stored price of the source. -/
def storedPrice (src : Source) (p : Product) : JSVal :=
  match src with
  | amazon => p.amazonPrice
  | flipkart => p.flipkartPrice

/-- The price a history entry records for the source. -/
def historyPrice (src : Source) (e : HistoryEntry) : JSVal :=
  match src with
  | amazon => e.amazonPrice
  | flipkart => e.flipkartPrice

/-- The outcome of the source's request. -/
def get (src : Source) (w : World) : String → Option Doc :=
  match src with
  | amazon => w.getAmazon
  | flipkart => w.getFlipkart

/-- The scraper of the source, on the pages of `w`. -/
def scrape (src : Source) (w : World) (url : String) : JSVal :=
  match src with
  | amazon => scrapeAmazonPrice w.getAmazon url
  | flipkart => scrapeFlipkartPrice w.getFlipkart url

/-- The reading of `Date.now()` that goes into the id of the source's alert. -/
def idNow (src : Source) (w : World) : ℕ :=
  match src with
  | amazon => w.amazonIdNow
  | flipkart => w.flipkartIdNow

/-- The reading of `new Date()` that becomes the `date` of the source's alert. -/
def alertDate (src : Source) (w : World) : ℕ :=
  match src with
  | amazon => w.amazonAlertDate
  | flipkart => w.flipkartAlertDate

/-- The object literal pushed onto `alerts` in the source's block, for the
    product `p` as the block finds it and the scraped `newPrice`. -/
def alert (src : Source) (w : World) (p : Product) (newPrice : JSVal) : Alert :=
  { id := toString (src.idNow w) ++ ("-" ++ src.platform)
    productId := p.id
    productName := p.name
    platform := src.platform
    oldPrice := src.storedPrice p
    newPrice := newPrice
    percentChange := toFixed1 (percentChange newPrice (src.storedPrice p))
    date := src.alertDate w }

/-- The alerts the source's block adds when it finds the product `p`: at most
    one, under the two guards of the block. -/
def emitted (src : Source) (w : World) (p : Product) : List Alert :=
  match truthyUrl (src.url p) with
  | none => []
  | some url =>
    let newPrice := src.scrape w url
    if isPositivePrice newPrice && qualifies (percentChange newPrice (src.storedPrice p)) then
      [src.alert w p newPrice]
    else []

/-- The source's block does nothing for product `p`: no URL passes the test,
    or the scraper's result fails `newPrice && newPrice > 0`. -/
def skipped (src : Source) (w : World) (p : Product) : Bool :=
  match truthyUrl (src.url p) with
  | none => true
  | some url => !isPositivePrice (src.scrape w url)

/-- The source's update of alerts, stored price and history. -/
def update (src : Source) (w : World) (s : CheckState) (newPrice : JSVal) : CheckState :=
  match src with
  | amazon => amazonUpdate w s newPrice
  | flipkart => flipkartUpdate w s newPrice

/-- The block of `checkPriceDrops` that checks the source. -/
def block (src : Source) (w : World) (s : CheckState) : CheckState :=
  match src with
  | amazon => checkAmazon w s
  | flipkart => checkFlipkart w s

/-- The product with the source's URL property removed. -/
def clearUrl (src : Source) (p : Product) : Product :=
  match src with
  | amazon => { p with amazonUrl := none }
  | flipkart => { p with flipkartUrl := none }

end Source

/-! ## The rules of the extractor -/

/-- What one pass of the scrapers' loop body assigns to `price` for
    `selector`: nothing when the trimmed text of the first match is empty,
    else the number parsed from its digits and points. -/
def ruleValue (doc : Doc) (selector : String) : Option JSVal :=
  let priceText := trim (doc selector).toList
  if priceText.isEmpty then none
  else some (JSVal.num (parseFloat (stripNonNumeric priceText)))

/-- The selector list of the source's scraper. -/
def Source.selectors : Source → List String
  | Source.amazon => amazonSelectors
  | Source.flipkart => flipkartSelectors

/-! ## The server state and its routes -/

/-- The module-level variables `products`, `alerts` and `priceHistory`. -/
structure Server where
  products : List Product
  alerts : List Alert
  priceHistory : PriceHistory

/-- The array `products` once the object that `products.find(p => p.id === id)`
    returns, the first with that id, has been changed in place to `updated`. -/
def updateFound (id : String) (updated : Product) : List Product → List Product
  | [] => []
  | p :: rest => if p.id = id then updated :: rest else p :: updateFound id updated rest

/-- The response of `POST /api/products/:id/check-price`: either
    `res.status(status).json({ error })` or `res.json({ product, alerts })`. -/
inductive CheckPriceResponse where
  | error (status : ℕ) (message : String)
  | ok (product : Product) (alerts : List Alert)
  deriving DecidableEq

/-- The handler of `POST /api/products/:id/check-price`, the run of
    `checkPriceDrops` it awaits taking place in `w`. -/
def checkPrice (w : World) (sv : Server) (id : String) : Server × CheckPriceResponse :=
  match sv.products.find? fun p => p.id == id with
  | none => (sv, CheckPriceResponse.error 404 "Product not found")
  | some product =>
    let r := checkPriceDrops w product sv.priceHistory
    ({ products := updateFound id r.product sv.products
       alerts := sv.alerts ++ r.alerts
       priceHistory := r.priceHistory },
     CheckPriceResponse.ok r.product r.alerts)

/-- The products, the local `allNewAlerts` and `priceHistory` during the loop
    of `POST /api/check-all-prices`. -/
structure SweepState where
  products : List Product
  allNewAlerts : List Alert
  priceHistory : PriceHistory

/-- The loop `for (const product of products)` of the check-all handler from
    position `i` on; the run for the product at position `j` takes place in
    `worlds j`. -/
def checkEach (worlds : ℕ → World) : ℕ → List Product → List Alert → PriceHistory → SweepState
  | _, [], allNewAlerts, priceHistory =>
    { products := [], allNewAlerts := allNewAlerts, priceHistory := priceHistory }
  | i, product :: rest, allNewAlerts, priceHistory =>
    let r := checkPriceDrops (worlds i) product priceHistory
    let later := checkEach worlds (i + 1) rest (allNewAlerts ++ r.alerts) r.priceHistory
    { products := r.product :: later.products
      allNewAlerts := later.allNewAlerts
      priceHistory := later.priceHistory }

/-- The body `{ checked, alerts }` of the check-all response. -/
structure CheckAllResponse where
  checked : ℕ
  alerts : List Alert
  deriving DecidableEq

/-- The handler of `POST /api/check-all-prices`. -/
def checkAllPrices (worlds : ℕ → World) (sv : Server) : Server × CheckAllResponse :=
  let r := checkEach worlds 0 sv.products [] sv.priceHistory
  ({ products := r.products
     alerts := sv.alerts ++ r.allNewAlerts
     priceHistory := r.priceHistory },
   { checked := r.products.length, alerts := r.allNewAlerts })

/-- A page on which `selector` matches a node with text `text` and no other
    selector of the scrapers matches. -/
def pageWith (selector text : String) : Doc :=
  fun sel => if sel = selector then text else ""

/-- A world that answers every Amazon request with `amazon`, every Flipkart
    request with `flipkart`, and whose clock reads `now` throughout. -/
def worldAt (amazon flipkart : Option Doc) (now : ℕ) : World :=
  { getAmazon := fun _ => amazon
    getFlipkart := fun _ => flipkart
    amazonIdNow := now
    amazonAlertDate := now
    amazonHistoryDate := now
    flipkartIdNow := now
    flipkartAlertDate := now
    flipkartHistoryDate := now }

/-- A product tracked on both shops, with the given stored prices. -/
def phone (amazonPrice flipkartPrice : JSVal) : Product :=
  { id := "1700000000000"
    name := "phone"
    amazonUrl := some "https://www.amazon.in/dp/B0PHONE"
    flipkartUrl := some "https://www.flipkart.com/phone/p/itm1"
    amazonPrice := amazonPrice
    flipkartPrice := flipkartPrice }

/-- A product tracked on Flipkart only; the front end sends the empty string
    for the URL that was not filled in. -/
def tablet : Product :=
  { id := "1700000000500"
    name := "tablet"
    amazonUrl := some ""
    flipkartUrl := some "https://www.flipkart.com/tablet/p/itm2"
    amazonPrice := JSVal.num (JSNum.fin 45000)
    flipkartPrice := JSVal.num (JSNum.fin 1000) }

/-- A world in which both requests of a run succeed, Amazon showing `78,500`
    and Flipkart `₹77,999`. -/
def bothPagesWorld : World :=
  worldAt (some (pageWith ".a-price-whole" "78,500")) (some (pageWith "._30jeq3" "₹77,999"))
    1700021600000

/-- A world in which the Amazon page shows `text` under `.a-price-whole`, the
    Flipkart request fails and the clock reads `now`. -/
def amazonShows (text : String) (now : ℕ) : World :=
  worldAt (some (pageWith ".a-price-whole" text)) none now

/-- A product tracked on Flipkart only, stored at 50000 there. -/
def camera : Product :=
  { id := "1700000000900"
    name := "camera"
    amazonUrl := some ""
    flipkartUrl := some "https://www.flipkart.com/camera/p/itm3"
    amazonPrice := JSVal.num (JSNum.fin 52000)
    flipkartPrice := JSVal.num (JSNum.fin 50000) }

/-- A server tracking the phone (stored 80000 and 79000), the tablet and the
    camera, with no alert yet and no history recorded. -/
def shop : Server :=
  { products := [phone (JSVal.num (JSNum.fin 80000)) (JSVal.num (JSNum.fin 79000)), tablet, camera]
    alerts := []
    priceHistory := fun _ => none }

/-- The worlds of a sweep over `shop`: Amazon shows `60,000` for the phone,
    every request for the tablet fails, Flipkart shows `₹39,999` for the
    camera. -/
def sweepWorlds : ℕ → World :=
  fun i =>
    if i = 0 then amazonShows "60,000" 1700021600000
    else if i = 1 then worldAt none none 1700021601000
    else worldAt none (some (pageWith "._30jeq3" "₹39,999")) 1700021602000

/-- The history `POST /api/products` leaves for `p`, created at `date`. -/
def initialHistory (p : Product) (date : ℕ) : PriceHistory :=
  fun k => if k = p.id then
    some [{ date := date, amazonPrice := p.amazonPrice, flipkartPrice := p.flipkartPrice }]
  else none

/-! # Theorems -/

/-! ## Arithmetic of the change detector -/

theorem isPositivePrice_fin (q : ℚ) : isPositivePrice (JSVal.num (JSNum.fin q)) = true ↔ 0 < q := by
  simp only [isPositivePrice, JSVal.truthy, JSNum.truthy, JSVal.toNumber, JSNum.gt,
    Bool.and_eq_true, decide_eq_true_eq]
  constructor
  · exact fun h => h.2
  · exact fun h => ⟨ne_of_gt h, h⟩

theorem block_of_found (src : Source) (w : World) (s : CheckState) (url : String)
    (hurl : truthyUrl (src.url s.product) = some url)
    (hpos : isPositivePrice (src.scrape w url) = true) :
    src.block w s = src.update w s (src.scrape w url) := by
  cases src <;>
    simp_all [Source.block, Source.update, Source.url, Source.scrape, checkAmazon, checkFlipkart]

theorem block_of_not_positive (src : Source) (w : World) (s : CheckState) (url : String)
    (hurl : truthyUrl (src.url s.product) = some url)
    (hpos : isPositivePrice (src.scrape w url) = false) :
    src.block w s = s := by
  cases src <;>
    simp_all [Source.block, Source.url, Source.scrape, checkAmazon, checkFlipkart]

theorem block_of_no_url (src : Source) (w : World) (s : CheckState)
    (hurl : truthyUrl (src.url s.product) = none) :
    src.block w s = s := by
  cases src <;> simp_all [Source.block, Source.url, checkAmazon, checkFlipkart]

theorem checkPriceDrops_eq (w : World) (product : Product) (priceHistory : PriceHistory) :
    checkPriceDrops w product priceHistory =
      Source.flipkart.block w (Source.amazon.block w
        { alerts := [], product := product, priceHistory := priceHistory }) := rfl

theorem alerts_update (src : Source) (w : World) (s : CheckState) (newPrice : JSVal) :
    (src.update w s newPrice).alerts = s.alerts ++
      (if qualifies (percentChange newPrice (src.storedPrice s.product)) then
        [src.alert w s.product newPrice] else []) := by
  cases src <;>
    simp only [Source.update, amazonUpdate, flipkartUpdate, Source.storedPrice, Source.alert,
      Source.idNow, Source.platform, Source.alertDate] <;>
    split <;> simp

theorem alerts_block (src : Source) (w : World) (s : CheckState) :
    (src.block w s).alerts = s.alerts ++ src.emitted w s.product := by
  unfold Source.emitted
  cases hurl : truthyUrl (src.url s.product) with
  | none => simp [block_of_no_url src w s hurl]
  | some url =>
    cases hpos : isPositivePrice (src.scrape w url) with
    | false => simp [block_of_not_positive src w s url hurl hpos, hpos]
    | true => simp [block_of_found src w s url hurl hpos, alerts_update, hpos]

theorem product_update_amazon (w : World) (s : CheckState) (newPrice : JSVal) :
    (amazonUpdate w s newPrice).product = { s.product with amazonPrice := newPrice } := rfl

theorem product_update_flipkart (w : World) (s : CheckState) (newPrice : JSVal) :
    (flipkartUpdate w s newPrice).product = { s.product with flipkartPrice := newPrice } := rfl

/-- A block leaves the id, the name, both URLs and the other source's stored
    price of the product as they were. -/
theorem product_block_frame (src : Source) (w : World) (s : CheckState) :
    (src.block w s).product.id = s.product.id ∧
    (src.block w s).product.name = s.product.name ∧
    (src.block w s).product.amazonUrl = s.product.amazonUrl ∧
    (src.block w s).product.flipkartUrl = s.product.flipkartUrl ∧
    src.other.storedPrice (src.block w s).product = src.other.storedPrice s.product := by
  cases hurl : truthyUrl (src.url s.product) with
  | none => simp [block_of_no_url src w s hurl]
  | some url =>
    cases hpos : isPositivePrice (src.scrape w url) with
    | false => simp [block_of_not_positive src w s url hurl hpos]
    | true =>
      rw [block_of_found src w s url hurl hpos]
      cases src <;>
        simp [Source.update, product_update_amazon, product_update_flipkart, Source.other,
          Source.storedPrice]

theorem emitted_flipkart_after_amazon (w : World) (s : CheckState) :
    Source.flipkart.emitted w (Source.amazon.block w s).product =
      Source.flipkart.emitted w s.product := by
  obtain ⟨hid, hname, -, hurl, hprice⟩ := product_block_frame Source.amazon w s
  simp only [Source.other] at hprice
  simp only [Source.emitted, Source.alert, Source.url, hurl, hprice, hid, hname]

/-- The alerts of a run: those of the Amazon block, then those of the Flipkart
    block, each decided on the product as it was passed in. -/
theorem alerts_checkPriceDrops (w : World) (product : Product) (priceHistory : PriceHistory) :
    (checkPriceDrops w product priceHistory).alerts =
      Source.amazon.emitted w product ++ Source.flipkart.emitted w product := by
  rw [checkPriceDrops_eq, alerts_block, alerts_block, emitted_flipkart_after_amazon]
  simp

theorem platform_injective (a b : Source) (h : a.platform = b.platform) : a = b := by
  cases a <;> cases b <;> first | rfl | (exact absurd h (by decide))

theorem mem_emitted_iff (src : Source) (w : World) (p : Product) (a : Alert) :
    a ∈ src.emitted w p ↔ ∃ url, truthyUrl (src.url p) = some url ∧
      isPositivePrice (src.scrape w url) = true ∧
      qualifies (percentChange (src.scrape w url) (src.storedPrice p)) = true ∧
      a = src.alert w p (src.scrape w url) := by
  unfold Source.emitted
  cases hurl : truthyUrl (src.url p) with
  | none => simp
  | some url =>
    by_cases hc : isPositivePrice (src.scrape w url) = true ∧
        qualifies (percentChange (src.scrape w url) (src.storedPrice p)) = true
    · simp [hc.1, hc.2]
    · have : ¬ (isPositivePrice (src.scrape w url) &&
          qualifies (percentChange (src.scrape w url) (src.storedPrice p))) = true := by
        simpa using hc
      simp only [if_neg this, List.not_mem_nil, false_iff]
      rintro ⟨url', hu, h1, h2, -⟩
      cases Option.some.inj hu
      exact hc ⟨h1, h2⟩

/-- Membership in the alerts of a run. -/
theorem mem_alerts_iff (w : World) (product : Product) (priceHistory : PriceHistory) (a : Alert) :
    a ∈ (checkPriceDrops w product priceHistory).alerts ↔
      ∃ src : Source, ∃ url, truthyUrl (src.url product) = some url ∧
        isPositivePrice (src.scrape w url) = true ∧
        qualifies (percentChange (src.scrape w url) (src.storedPrice product)) = true ∧
        a = src.alert w product (src.scrape w url) := by
  rw [alerts_checkPriceDrops, List.mem_append, mem_emitted_iff, mem_emitted_iff]
  constructor
  · rintro (h | h)
    · exact ⟨Source.amazon, h⟩
    · exact ⟨Source.flipkart, h⟩
  · rintro ⟨src, h⟩
    cases src
    · exact Or.inl h
    · exact Or.inr h

theorem timeline_set (h : PriceHistory) (id : String) (t : List HistoryEntry) :
    (h.set id t).timeline id = t := by
  simp [PriceHistory.set, PriceHistory.timeline]

/-- C3 on the code: two successive Flipkart-only checks of a product created
    at `1700000000500` with Flipkart price `1000`, extracting `900` and then
    `800`, leave one entry each time, the creation entry with its Flipkart
    price overwritten. -/
theorem flipkart_only_checks_overwrite_entry :
    (checkPriceDrops (worldAt none (some (pageWith "._30jeq3" "₹900")) 1700021600000) tablet
        (initialHistory tablet 1700000000500)).priceHistory tablet.id =
      some [{ date := 1700000000500, amazonPrice := JSVal.num (JSNum.fin 45000),
              flipkartPrice := JSVal.num (JSNum.fin 900) }] ∧
    (checkPriceDrops (worldAt none (some (pageWith "._30jeq3" "₹800")) 1700043200000)
        (checkPriceDrops (worldAt none (some (pageWith "._30jeq3" "₹900")) 1700021600000) tablet
          (initialHistory tablet 1700000000500)).product
        (checkPriceDrops (worldAt none (some (pageWith "._30jeq3" "₹900")) 1700021600000) tablet
          (initialHistory tablet 1700000000500)).priceHistory).priceHistory tablet.id =
      some [{ date := 1700000000500, amazonPrice := JSVal.num (JSNum.fin 45000),
              flipkartPrice := JSVal.num (JSNum.fin 800) }] := by
  decide!

/-- C4. When the Flipkart extraction of a run succeeds and the product's
    timeline, as the Amazon block leaves it, has a latest entry, the run
    writes the new price into that entry, be its Flipkart value absent or
    not: the timeline keeps its length and its earlier entries, and its latest
    entry is the old one with the Flipkart price set to the new price, the
    Amazon price and the date as recorded. -/
theorem flipkart_update_merges_into_latest (w : World) (product : Product)
    (priceHistory : PriceHistory) (url : String) (newPrice : JSVal) (latest : HistoryEntry)
    (hurl : truthyUrl product.flipkartUrl = some url)
    (hscrape : scrapeFlipkartPrice w.getFlipkart url = newPrice)
    (hpos : isPositivePrice newPrice = true)
    (hlatest : ((checkAmazon w ⟨[], product, priceHistory⟩).priceHistory.timeline
      product.id).getLast? = some latest) :
    ((checkPriceDrops w product priceHistory).priceHistory.timeline product.id).length =
      ((checkAmazon w ⟨[], product, priceHistory⟩).priceHistory.timeline product.id).length ∧
    ((checkPriceDrops w product priceHistory).priceHistory.timeline product.id).dropLast =
      ((checkAmazon w ⟨[], product, priceHistory⟩).priceHistory.timeline product.id).dropLast ∧
    ((checkPriceDrops w product priceHistory).priceHistory.timeline product.id).getLast? =
      some { date := latest.date, amazonPrice := latest.amazonPrice,
             flipkartPrice := newPrice } := by
  obtain ⟨hid, -, -, hu, -⟩ := product_block_frame Source.amazon w ⟨[], product, priceHistory⟩
  simp only [Source.block] at hid hu
  have hrun : checkPriceDrops w product priceHistory =
      flipkartUpdate w (checkAmazon w ⟨[], product, priceHistory⟩) newPrice := by
    simp only [checkPriceDrops, checkFlipkart, hu, hurl, hscrape, hpos, if_true]
  rw [hrun]
  simp only [flipkartUpdate, hid, hlatest, timeline_set]
  have hne : (checkAmazon w ⟨[], product, priceHistory⟩).priceHistory.timeline product.id ≠ [] := by
    intro h
    rw [h] at hlatest
    simp at hlatest
  refine ⟨?_, ?_, ?_⟩
  · simp only [List.length_append, List.length_dropLast, List.length_singleton]
    have := List.length_pos.2 hne
    omega
  · simp
  · simp

/-- C4 in a run where both extractions succeed and the product had no stored
    Flipkart price: the entry the Amazon block pushed receives the Flipkart
    price, and the timeline has that one entry. -/
theorem flipkart_update_merges_into_latest_witness :
    ((checkPriceDrops bothPagesWorld (phone (JSVal.num (JSNum.fin 80000)) JSVal.undefined)
        (fun _ => none)).priceHistory.timeline "1700000000000").length = 1 ∧
    ((checkPriceDrops bothPagesWorld (phone (JSVal.num (JSNum.fin 80000)) JSVal.undefined)
        (fun _ => none)).priceHistory.timeline "1700000000000").getLast? =
      some { date := 1700021600000, amazonPrice := JSVal.num (JSNum.fin 78500),
             flipkartPrice := JSVal.num (JSNum.fin 77999) } :=
  have h := flipkart_update_merges_into_latest bothPagesWorld
    (phone (JSVal.num (JSNum.fin 80000)) JSVal.undefined) (fun _ => none)
    "https://www.flipkart.com/phone/p/itm1" (JSVal.num (JSNum.fin 77999))
    { date := 1700021600000, amazonPrice := JSVal.num (JSNum.fin 78500),
      flipkartPrice := JSVal.undefined }
    (by decide) (by decide!) (by decide!) (by decide!)
  ⟨h.1.trans (by decide!), h.2.2⟩

/-! ## Stored prices and skipped sources -/

theorem storedPrice_update (src : Source) (w : World) (s : CheckState) (newPrice : JSVal) :
    src.storedPrice (src.update w s newPrice).product = newPrice := by
  cases src <;> rfl

/-- C5. For a source with a configured URL whose extraction yields a positive
    price `p`, the product's stored price of that source is `p` after the run,
    alert or no alert. -/
theorem stored_price_is_extracted_price (src : Source) (w : World) (product : Product)
    (priceHistory : PriceHistory) (url : String) (p : ℚ)
    (hurl : truthyUrl (src.url product) = some url)
    (hscrape : src.scrape w url = JSVal.num (JSNum.fin p))
    (hp : 0 < p) :
    src.storedPrice (checkPriceDrops w product priceHistory).product =
      JSVal.num (JSNum.fin p) := by
  have hpos : isPositivePrice (src.scrape w url) = true := by
    rw [hscrape]; exact (isPositivePrice_fin p).2 hp
  rw [checkPriceDrops_eq]
  cases src with
  | amazon =>
    have h := (product_block_frame Source.flipkart w
      (Source.amazon.block w ⟨[], product, priceHistory⟩)).2.2.2.2
    simp only [Source.other] at h
    rw [h, block_of_found Source.amazon w ⟨[], product, priceHistory⟩ url hurl hpos,
      storedPrice_update, hscrape]
  | flipkart =>
    have hu := (product_block_frame Source.amazon w ⟨[], product, priceHistory⟩).2.2.2.1
    have hurl' : truthyUrl (Source.flipkart.url
        (Source.amazon.block w ⟨[], product, priceHistory⟩).product) = some url := by
      simpa only [Source.url, hu] using hurl
    rw [block_of_found Source.flipkart w _ url hurl' hpos, storedPrice_update, hscrape]

/-- C5 in a run that alerts on Amazon (80000 to 60000) and does not alert on
    Flipkart (79000 to 77999): both stored prices are the extracted ones. -/
theorem stored_price_is_extracted_price_witness :
    Source.amazon.storedPrice (checkPriceDrops
        (worldAt (some (pageWith "#priceblock_dealprice" " ₹ 60,000.00 "))
          (some (pageWith "._30jeq3" "₹77,999")) 1700021600000)
        (phone (JSVal.num (JSNum.fin 80000)) (JSVal.num (JSNum.fin 79000)))
        (fun _ => none)).product = JSVal.num (JSNum.fin 60000) ∧
    Source.flipkart.storedPrice (checkPriceDrops
        (worldAt (some (pageWith "#priceblock_dealprice" " ₹ 60,000.00 "))
          (some (pageWith "._30jeq3" "₹77,999")) 1700021600000)
        (phone (JSVal.num (JSNum.fin 80000)) (JSVal.num (JSNum.fin 79000)))
        (fun _ => none)).product = JSVal.num (JSNum.fin 77999) ∧
    ((checkPriceDrops
        (worldAt (some (pageWith "#priceblock_dealprice" " ₹ 60,000.00 "))
          (some (pageWith "._30jeq3" "₹77,999")) 1700021600000)
        (phone (JSVal.num (JSNum.fin 80000)) (JSVal.num (JSNum.fin 79000)))
        (fun _ => none)).alerts.map fun a => a.platform) = ["amazon"] :=
  ⟨stored_price_is_extracted_price Source.amazon
      (worldAt (some (pageWith "#priceblock_dealprice" " ₹ 60,000.00 "))
        (some (pageWith "._30jeq3" "₹77,999")) 1700021600000)
      (phone (JSVal.num (JSNum.fin 80000)) (JSVal.num (JSNum.fin 79000))) (fun _ => none)
      "https://www.amazon.in/dp/B0PHONE" 60000 (by decide) (by decide!) (by norm_num),
   stored_price_is_extracted_price Source.flipkart
      (worldAt (some (pageWith "#priceblock_dealprice" " ₹ 60,000.00 "))
        (some (pageWith "._30jeq3" "₹77,999")) 1700021600000)
      (phone (JSVal.num (JSNum.fin 80000)) (JSVal.num (JSNum.fin 79000))) (fun _ => none)
      "https://www.flipkart.com/phone/p/itm1" 77999 (by decide) (by decide!) (by norm_num),
   by decide!⟩

theorem block_of_skipped (src : Source) (w : World) (s : CheckState)
    (hskip : src.skipped w s.product = true) : src.block w s = s := by
  unfold Source.skipped at hskip
  cases hurl : truthyUrl (src.url s.product) with
  | none => exact block_of_no_url src w s hurl
  | some url =>
    rw [hurl] at hskip
    exact block_of_not_positive src w s url hurl (by simpa using hskip)

/-- A run in which a source is skipped is the block of the other source. -/
theorem checkPriceDrops_of_skipped (src : Source) (w : World) (product : Product)
    (priceHistory : PriceHistory) (hskip : src.skipped w product = true) :
    checkPriceDrops w product priceHistory = src.other.block w ⟨[], product, priceHistory⟩ := by
  rw [checkPriceDrops_eq]
  cases src with
  | amazon => rw [block_of_skipped Source.amazon w _ hskip]; rfl
  | flipkart =>
    have hu := (product_block_frame Source.amazon w ⟨[], product, priceHistory⟩).2.2.2.1
    rw [block_of_skipped Source.flipkart w _ (by
      simpa only [Source.skipped, Source.url, hu] using hskip)]
    rfl

theorem other_other (src : Source) : src.other.other = src := by
  cases src <;> rfl

/-- The scraper of a source returns `null` when its request fails. -/
theorem scrape_of_failed_fetch (src : Source) (w : World) (url : String)
    (hfail : src.get w url = none) : src.scrape w url = JSVal.null := by
  cases src <;> simp_all [Source.get, Source.scrape, scrapeAmazonPrice, scrapeFlipkartPrice]

/-- C6. When a source is skipped for a product (no URL passes the test, or
    the scraper's result is not a positive price: `null` after a failed fetch
    or when no selector matches, zero, `NaN`), the source's block returns the
    state it receives, so the run is the block of the other source alone; the
    stored price of the source is unchanged and no alert of the source is
    emitted. -/
theorem skipped_source_changes_nothing (src : Source) (w : World) (product : Product)
    (priceHistory : PriceHistory) (hskip : src.skipped w product = true) :
    (∀ s : CheckState, src.url s.product = src.url product → src.block w s = s) ∧
    checkPriceDrops w product priceHistory = src.other.block w ⟨[], product, priceHistory⟩ ∧
    src.storedPrice (checkPriceDrops w product priceHistory).product =
      src.storedPrice product ∧
    ∀ a ∈ (checkPriceDrops w product priceHistory).alerts, a.platform ≠ src.platform := by
  refine ⟨?_, checkPriceDrops_of_skipped src w product priceHistory hskip, ?_, ?_⟩
  · intro s hs
    exact block_of_skipped src w s (by simpa only [Source.skipped, hs] using hskip)
  · rw [checkPriceDrops_of_skipped src w product priceHistory hskip]
    have h := (product_block_frame src.other w ⟨[], product, priceHistory⟩).2.2.2.2
    rwa [other_other] at h
  · intro a ha hp
    obtain ⟨src', url, hurl, hpos, -, rfl⟩ := (mem_alerts_iff w product priceHistory a).1 ha
    have hsrc : src' = src := platform_injective _ _ hp
    subst hsrc
    simp [Source.skipped, hurl, hpos] at hskip

/-- C6 on a product with stored prices 80000 and 79000: (1) the Amazon fetch
    fails; (2) the Flipkart page shows `₹0`; (3) the Flipkart node reads
    `Currently unavailable`, which parses to `NaN`; in each run the stored price
    of the skipped source stays. -/
theorem skipped_source_changes_nothing_witness :
    (Source.amazon.storedPrice (checkPriceDrops (worldAt none (some (pageWith "x" "y")) 1700021600000)
        (phone (JSVal.num (JSNum.fin 80000)) (JSVal.num (JSNum.fin 79000)))
        (initialHistory (phone (JSVal.num (JSNum.fin 80000)) (JSVal.num (JSNum.fin 79000)))
          1700000000000)).product = JSVal.num (JSNum.fin 80000)) ∧
    (Source.flipkart.storedPrice (checkPriceDrops
        (worldAt none (some (pageWith "._30jeq3" "₹0")) 1700021600000)
        (phone (JSVal.num (JSNum.fin 80000)) (JSVal.num (JSNum.fin 79000)))
        (fun _ => none)).product = JSVal.num (JSNum.fin 79000)) ∧
    (Source.flipkart.storedPrice (checkPriceDrops
        (worldAt none (some (pageWith "._1vC4OE" "Currently unavailable")) 1700021600000)
        (phone (JSVal.num (JSNum.fin 80000)) (JSVal.num (JSNum.fin 79000)))
        (fun _ => none)).product = JSVal.num (JSNum.fin 79000)) ∧
    scrapeFlipkartPrice (fun _ => some (pageWith "._1vC4OE" "Currently unavailable")) "u" =
      JSVal.num JSNum.nan :=
  ⟨(skipped_source_changes_nothing Source.amazon (worldAt none (some (pageWith "x" "y")) 1700021600000)
      (phone (JSVal.num (JSNum.fin 80000)) (JSVal.num (JSNum.fin 79000)))
      (initialHistory (phone (JSVal.num (JSNum.fin 80000)) (JSVal.num (JSNum.fin 79000)))
        1700000000000) (by decide!)).2.2.1,
   (skipped_source_changes_nothing Source.flipkart
      (worldAt none (some (pageWith "._30jeq3" "₹0")) 1700021600000)
      (phone (JSVal.num (JSNum.fin 80000)) (JSVal.num (JSNum.fin 79000)))
      (fun _ => none) (by decide!)).2.2.1,
   (skipped_source_changes_nothing Source.flipkart
      (worldAt none (some (pageWith "._1vC4OE" "Currently unavailable")) 1700021600000)
      (phone (JSVal.num (JSNum.fin 80000)) (JSVal.num (JSNum.fin 79000)))
      (fun _ => none) (by decide!)).2.2.1,
   by decide!⟩

theorem block_other_clearUrl (src : Source) (w : World) (alerts : List Alert) (p : Product)
    (h : PriceHistory) :
    src.other.block w ⟨alerts, src.clearUrl p, h⟩ =
      ⟨(src.other.block w ⟨alerts, p, h⟩).alerts,
       src.clearUrl (src.other.block w ⟨alerts, p, h⟩).product,
       (src.other.block w ⟨alerts, p, h⟩).priceHistory⟩ := by
  cases src <;>
    simp only [Source.other, Source.block, Source.clearUrl, checkAmazon, checkFlipkart] <;>
    split <;> first | rfl | (split <;> rfl)

theorem skipped_clearUrl (src : Source) (w : World) (p : Product) :
    src.skipped w (src.clearUrl p) = true := by
  cases src <;> rfl

theorem storedPrice_other_clearUrl (src : Source) (p : Product) :
    src.other.storedPrice (src.clearUrl p) = src.other.storedPrice p := by
  cases src <;> rfl

/-- C7. When the fetch of one source fails, the run is the check of the other
    source alone, and its alerts, the other source's stored price and the
    history are those of the run on the same product without the failing
    source's URL. -/
theorem failed_fetch_same_as_no_url (src : Source) (w : World) (product : Product)
    (priceHistory : PriceHistory) (url : String)
    (hurl : truthyUrl (src.url product) = some url)
    (hfail : src.get w url = none) :
    checkPriceDrops w product priceHistory = src.other.block w ⟨[], product, priceHistory⟩ ∧
    (checkPriceDrops w product priceHistory).alerts =
      (checkPriceDrops w (src.clearUrl product) priceHistory).alerts ∧
    src.other.storedPrice (checkPriceDrops w product priceHistory).product =
      src.other.storedPrice (checkPriceDrops w (src.clearUrl product) priceHistory).product ∧
    (checkPriceDrops w product priceHistory).priceHistory =
      (checkPriceDrops w (src.clearUrl product) priceHistory).priceHistory := by
  have hskip : src.skipped w product = true := by
    simp [Source.skipped, hurl, scrape_of_failed_fetch src w url hfail, isPositivePrice,
      JSVal.truthy]
  rw [checkPriceDrops_of_skipped src w product priceHistory hskip,
    checkPriceDrops_of_skipped src w (src.clearUrl product) priceHistory
      (skipped_clearUrl src w product),
    block_other_clearUrl]
  exact ⟨rfl, rfl, (storedPrice_other_clearUrl src _).symm, rfl⟩

/-- C7 in a run whose Amazon fetch fails while Flipkart shows `₹60,000`
    against a stored 79000: the Flipkart alert is emitted and the Flipkart
    price stored. -/
theorem failed_fetch_same_as_no_url_witness :
    ((checkPriceDrops (worldAt none (some (pageWith "._30jeq3" "₹60,000")) 1700021600000)
        (phone (JSVal.num (JSNum.fin 80000)) (JSVal.num (JSNum.fin 79000)))
        (fun _ => none)).alerts.map fun a => a.id) = ["1700021600000-flipkart"] ∧
    (checkPriceDrops (worldAt none (some (pageWith "._30jeq3" "₹60,000")) 1700021600000)
        (phone (JSVal.num (JSNum.fin 80000)) (JSVal.num (JSNum.fin 79000)))
        (fun _ => none)).product.flipkartPrice = JSVal.num (JSNum.fin 60000) :=
  have h := failed_fetch_same_as_no_url Source.amazon
    (worldAt none (some (pageWith "._30jeq3" "₹60,000")) 1700021600000)
    (phone (JSVal.num (JSNum.fin 80000)) (JSVal.num (JSNum.fin 79000))) (fun _ => none)
    "https://www.amazon.in/dp/B0PHONE" (by decide) rfl
  ⟨(congrArg (List.map fun a => a.id) h.2.1).trans (by decide!), h.2.2.1.trans (by decide!)⟩

/-! ## The contents of an alert -/

theorem digitChar_value (k : ℕ) (hk : k < 10) : (Nat.digitChar k).toNat - '0'.toNat = k := by
  interval_cases k <;> rfl

theorem toDigitsCore_value (fuel : ℕ) : ∀ (n : ℕ) (ds : List Char), n < fuel →
    ∃ pre, Nat.toDigitsCore 10 fuel n ds = pre ++ ds ∧ digitsValue pre = n := by
  induction fuel with
  | zero => intro n ds h; omega
  | succ fuel ih =>
    intro n ds h
    simp only [Nat.toDigitsCore]
    by_cases h0 : n / 10 = 0
    · refine ⟨[Nat.digitChar (n % 10)], by simp [h0], ?_⟩
      have hlt : n < 10 := by omega
      have hd := digitChar_value n hlt
      simp only [Nat.mod_eq_of_lt hlt, digitsValue, List.foldl_cons, List.foldl_nil, hd]
      omega
    · obtain ⟨pre, hpre, hval⟩ := ih (n / 10) (Nat.digitChar (n % 10) :: ds) (by omega)
      refine ⟨pre ++ [Nat.digitChar (n % 10)], by simp [h0, hpre], ?_⟩
      have hd := digitChar_value (n % 10) (Nat.mod_lt _ (by norm_num))
      unfold digitsValue at hval ⊢
      rw [List.foldl_append, hval]
      simp only [List.foldl_cons, List.foldl_nil, hd]
      omega

/-- Reading back the decimal text of a natural number gives the number. -/
theorem digitsValue_toString (n : ℕ) : digitsValue (toString n).data = n := by
  obtain ⟨pre, hpre, hval⟩ := toDigitsCore_value (n + 1) n [] (Nat.lt_succ_self n)
  have : (toString n).data = pre := by
    show (Nat.repr n).data = pre
    simp [Nat.repr, Nat.toDigits, hpre, List.asString]
  rw [this, hval]

theorem toString_nat_injective (m n : ℕ) (h : toString m = toString n) : m = n := by
  rw [← digitsValue_toString m, ← digitsValue_toString n, h]

/-- The id `Date.now().toString() + '-' + platform` determines the clock
    reading and the platform, and nothing else. -/
theorem alert_id_eq_iff (src src' : Source) (t t' : ℕ) :
    toString t ++ ("-" ++ src.platform) = toString t' ++ ("-" ++ src'.platform) ↔
      src = src' ∧ t = t' := by
  constructor
  · intro h
    have hsrc : src = src' := by
      cases src <;> cases src' <;> first
        | rfl
        | (exfalso
           have h2 := congrArg (fun x => x.data.getLast?) h
           simp [Source.platform] at h2)
    subst hsrc
    refine ⟨rfl, toString_nat_injective t t' ?_⟩
    have h2 := congrArg String.data h
    simp only [String.data_append] at h2
    exact String.ext (List.append_cancel_right h2)
  · rintro ⟨rfl, rfl⟩
    rfl

/-- In a store whose ids are pairwise different, deleting by the id of a
    stored alert erases that alert and no other. -/
theorem deleteAlert_eq_erase (store : List Alert) (hnodup : (store.map fun a => a.id).Nodup)
    (x : Alert) (hx : x ∈ store) : deleteAlert store x.id = store.erase x := by
  induction store with
  | nil => simp at hx
  | cons y ys ih =>
    simp only [List.map_cons, List.nodup_cons, List.mem_map, not_exists, not_and] at hnodup
    obtain ⟨hy, hys⟩ := hnodup
    by_cases hxy : x = y
    · subst hxy
      have hkeep : ys.filter (fun a => a.id != x.id) = ys :=
        List.filter_eq_self.2 fun a ha => by simpa using hy a ha
      simp [deleteAlert, hkeep]
    · have hxs : x ∈ ys := by
        rcases List.mem_cons.1 hx with h | h
        · exact absurd h hxy
        · exact h
      have hid : y.id ≠ x.id := fun h => hy x hxs h.symm
      have ih' := ih hys hxs
      simp only [deleteAlert] at ih' ⊢
      rw [List.filter_cons_of_pos (by simpa using hid), ih',
        List.erase_cons_tail (by simpa using fun h : y = x => hxy h.symm)]

/-- C10, as stated, fails: the Flipkart alerts of two different products,
    created at the same clock reading, carry the same id, and deleting by that
    id empties a store that holds the two. -/
theorem alerts_of_two_products_share_id :
    ∃ a ∈ (checkPriceDrops (worldAt none (some (pageWith "._30jeq3" "₹60,000")) 1700021600000)
        (phone (JSVal.num (JSNum.fin 80000)) (JSVal.num (JSNum.fin 79000)))
        (fun _ => none)).alerts,
    ∃ b ∈ (checkPriceDrops (worldAt none (some (pageWith "._30jeq3" "₹700")) 1700021600000)
        tablet (fun _ => none)).alerts,
      a.productId ≠ b.productId ∧ a.id = b.id ∧ deleteAlert [a, b] a.id = [] := by
  decide!

/-- C10, amended. Two alerts of any two runs have the same id exactly when
    they are of the same platform and their ids were made from the same
    reading of `Date.now()`; the product plays no part.  In an alert store
    whose ids are pairwise different, deleting by the id of a stored alert
    removes exactly that alert. -/
theorem alert_ids_by_platform_and_time (w w' : World) (product product' : Product)
    (priceHistory priceHistory' : PriceHistory) (a b : Alert)
    (ha : a ∈ (checkPriceDrops w product priceHistory).alerts)
    (hb : b ∈ (checkPriceDrops w' product' priceHistory').alerts) :
    (a.id = b.id ↔ ∃ src : Source, a.platform = src.platform ∧ b.platform = src.platform ∧
      src.idNow w = src.idNow w') ∧
    ∀ store : List Alert, (store.map fun x => x.id).Nodup → a ∈ store →
      deleteAlert store a.id = store.erase a ∧
        (deleteAlert store a.id).length + 1 = store.length := by
  obtain ⟨src, url, -, -, -, rfl⟩ := (mem_alerts_iff w product priceHistory a).1 ha
  obtain ⟨src', url', -, -, -, rfl⟩ := (mem_alerts_iff w' product' priceHistory' b).1 hb
  refine ⟨?_, fun store hnodup hmem => ?_⟩
  · simp only [Source.alert]
    rw [alert_id_eq_iff]
    constructor
    · rintro ⟨rfl, h⟩
      exact ⟨src, rfl, rfl, h⟩
    · rintro ⟨s, h1, h2, h3⟩
      have e1 := platform_injective _ _ h1
      have e2 := platform_injective _ _ h2
      subst e1
      subst e2
      exact ⟨rfl, h3⟩
  · have h := deleteAlert_eq_erase store hnodup _ hmem
    refine ⟨h, ?_⟩
    rw [h, List.length_erase_of_mem hmem]
    have := List.length_pos_of_mem hmem
    omega

/-- C10 amended, at the Amazon and Flipkart alerts of one run (80000 to 60000
    and 79000 to 60000, one clock reading): their ids differ, and deleting the
    Amazon alert from the store of the two leaves the Flipkart alert. -/
theorem alert_ids_by_platform_and_time_witness :
    ("1700021600000-amazon" = "1700021600000-flipkart" ↔
      ∃ src : Source, "amazon" = src.platform ∧ "flipkart" = src.platform ∧
        src.idNow (worldAt (some (pageWith ".a-price-whole" "60,000"))
          (some (pageWith "._30jeq3" "₹60,000")) 1700021600000) =
        src.idNow (worldAt (some (pageWith ".a-price-whole" "60,000"))
          (some (pageWith "._30jeq3" "₹60,000")) 1700021600000)) ∧
    (deleteAlert (checkPriceDrops (worldAt (some (pageWith ".a-price-whole" "60,000"))
        (some (pageWith "._30jeq3" "₹60,000")) 1700021600000)
        (phone (JSVal.num (JSNum.fin 80000)) (JSVal.num (JSNum.fin 79000)))
        (fun _ => none)).alerts "1700021600000-amazon").length + 1 = 2 :=
  have h := alert_ids_by_platform_and_time
    (worldAt (some (pageWith ".a-price-whole" "60,000")) (some (pageWith "._30jeq3" "₹60,000"))
      1700021600000)
    (worldAt (some (pageWith ".a-price-whole" "60,000")) (some (pageWith "._30jeq3" "₹60,000"))
      1700021600000)
    (phone (JSVal.num (JSNum.fin 80000)) (JSVal.num (JSNum.fin 79000)))
    (phone (JSVal.num (JSNum.fin 80000)) (JSVal.num (JSNum.fin 79000)))
    (fun _ => none) (fun _ => none)
    { id := "1700021600000-amazon", productId := "1700000000000", productName := "phone",
      platform := "amazon", oldPrice := JSVal.num (JSNum.fin 80000),
      newPrice := JSVal.num (JSNum.fin 60000), percentChange := FixedText.fixed true 250,
      date := 1700021600000 }
    { id := "1700021600000-flipkart", productId := "1700000000000", productName := "phone",
      platform := "flipkart", oldPrice := JSVal.num (JSNum.fin 79000),
      newPrice := JSVal.num (JSNum.fin 60000), percentChange := FixedText.fixed true 241,
      date := 1700021600000 }
    (by decide!) (by decide!)
  ⟨h.1, (h.2 _ (by decide!) (by decide!)).2.trans (by decide!)⟩

/-! ## Successive checks -/

/-- Every request of the product fails in `w`. -/
theorem skipped_of_failed_fetches (src : Source) (w : World) (p : Product)
    (hfail : ∀ url, truthyUrl (src.url p) = some url → src.get w url = none) :
    src.skipped w p = true := by
  unfold Source.skipped
  cases hurl : truthyUrl (src.url p) with
  | none => rfl
  | some url =>
    simp [scrape_of_failed_fetch src w url (hfail url hurl), isPositivePrice, JSVal.truthy]

/-- A run in which both sources are skipped returns no alert and leaves the
    product and the history as they were. -/
theorem checkPriceDrops_of_both_skipped (w : World) (product : Product)
    (priceHistory : PriceHistory) (ha : Source.amazon.skipped w product = true)
    (hf : Source.flipkart.skipped w product = true) :
    checkPriceDrops w product priceHistory = ⟨[], product, priceHistory⟩ := by
  rw [checkPriceDrops_of_skipped Source.amazon w product priceHistory ha]
  exact block_of_skipped Source.flipkart w ⟨[], product, priceHistory⟩ hf

theorem alerts_run_history_irrel (w : World) (product : Product) (h h' : PriceHistory) :
    (checkPriceDrops w product h).alerts = (checkPriceDrops w product h').alerts := by
  rw [alerts_checkPriceDrops, alerts_checkPriceDrops]

theorem alerts_checkEach (worlds : ℕ → World) (hs : ℕ → PriceHistory) :
    ∀ (products : List Product) (i : ℕ) (acc : List Alert) (h : PriceHistory),
      (checkEach worlds i products acc h).allNewAlerts = acc ++
        ((products.enumFrom i).map fun ip =>
          (checkPriceDrops (worlds ip.1) ip.2 (hs ip.1)).alerts).flatten := by
  intro products
  induction products with
  | nil => intro i acc h; simp [checkEach]
  | cons p rest ih =>
    intro i acc h
    simp only [checkEach, ih, List.enumFrom_cons, List.map_cons, List.flatten_cons,
      List.append_assoc]
    rw [alerts_run_history_irrel (worlds i) p h (hs i)]

theorem length_products_checkEach (worlds : ℕ → World) :
    ∀ (products : List Product) (i : ℕ) (acc : List Alert) (h : PriceHistory),
      (checkEach worlds i products acc h).products.length = products.length := by
  intro products
  induction products with
  | nil => intro i acc h; rfl
  | cons p rest ih => intro i acc h; simp [checkEach, ih]

/-- A product all of whose requests fail is at its position, unchanged, after
    the loop. -/
theorem failed_product_checkEach (worlds : ℕ → World) :
    ∀ (products : List Product) (i : ℕ) (acc : List Alert) (h : PriceHistory) (k : ℕ)
      (p : Product), products[k]? = some p →
      (∀ (src : Source) (url : String), truthyUrl (src.url p) = some url →
        src.get (worlds (i + k)) url = none) →
      (checkEach worlds i products acc h).products[k]? = some p := by
  intro products
  induction products with
  | nil => intro i acc h k p hk; simp at hk
  | cons q rest ih =>
    intro i acc h k p hk hfail
    cases k with
    | zero =>
      simp only [List.getElem?_cons_zero, Option.some.injEq] at hk
      subst hk
      have hrun := checkPriceDrops_of_both_skipped (worlds i) q h
        (skipped_of_failed_fetches Source.amazon (worlds i) q fun url hu => by
          simpa using hfail Source.amazon url hu)
        (skipped_of_failed_fetches Source.flipkart (worlds i) q fun url hu => by
          simpa using hfail Source.flipkart url hu)
      simp [checkEach, hrun]
    | succ k =>
      simp only [List.getElem?_cons_succ] at hk
      simp only [checkEach, List.getElem?_cons_succ]
      exact ih (i + 1) _ _ k p hk fun src url hu => by
        have := hfail src url hu
        rwa [show i + (k + 1) = i + 1 + k by omega] at this

/-- C12. The check-all response counts every tracked product, its alerts are
    the alerts of the runs of `checkPriceDrops` on the products in array
    order, each product in its own world, and a product all of whose requests
    fail is left as it was, at its position. -/
theorem check_all_counts_and_collects (worlds : ℕ → World) (sv : Server) :
    (checkAllPrices worlds sv).2.checked = sv.products.length ∧
    (∀ hs : ℕ → PriceHistory, (checkAllPrices worlds sv).2.alerts =
      (sv.products.enum.map fun ip =>
        (checkPriceDrops (worlds ip.1) ip.2 (hs ip.1)).alerts).flatten) ∧
    ∀ (k : ℕ) (p : Product), sv.products[k]? = some p →
      (∀ (src : Source) (url : String), truthyUrl (src.url p) = some url →
        src.get (worlds k) url = none) →
      (checkAllPrices worlds sv).1.products[k]? = some p := by
  refine ⟨?_, fun hs => ?_, fun k p hk hfail => ?_⟩
  · exact length_products_checkEach worlds sv.products 0 [] sv.priceHistory
  · simp only [checkAllPrices, List.enum]
    rw [alerts_checkEach worlds hs]
    simp
  · exact failed_product_checkEach worlds sv.products 0 [] sv.priceHistory k p hk
      fun src url hu => by simpa using hfail src url hu

/-- C12 on the sweep over phone, tablet and camera in which the tablet's
    requests fail: three products counted, the alerts are the phone's and the
    camera's, the tablet is unchanged. -/
theorem check_all_counts_and_collects_witness :
    (checkAllPrices sweepWorlds shop).2.checked = 3 ∧
    ((checkAllPrices sweepWorlds shop).2.alerts.map fun a => (a.productName, a.platform)) =
      [("phone", "amazon"), ("camera", "flipkart")] ∧
    (checkAllPrices sweepWorlds shop).1.products[1]? = some tablet :=
  have h := check_all_counts_and_collects sweepWorlds shop
  ⟨h.1, (congrArg (List.map fun a => (a.productName, a.platform))
      (h.2.1 fun _ => fun _ => none)).trans (by decide!),
    h.2.2 1 tablet rfl fun src _ _ => by cases src <;> rfl⟩

/-- C13, as stated, fails: in a sweep over the tablet alone, whose only request
    fails, the response reports one product checked. -/
theorem failed_product_is_counted :
    truthyUrl tablet.amazonUrl = none ∧
    truthyUrl tablet.flipkartUrl = some "https://www.flipkart.com/tablet/p/itm2" ∧
    (worldAt none none 1700021600000).getFlipkart "https://www.flipkart.com/tablet/p/itm2" = none ∧
    (checkAllPrices (fun _ => worldAt none none 1700021600000)
      { products := [tablet], alerts := [], priceHistory := fun _ => none }).2 =
        { checked := 1, alerts := [] } :=
  ⟨by decide, by decide, rfl, by decide!⟩

/-- C13, amended. The check-all response reports the number of tracked
    products: a product all of whose requests fail is counted like any other,
    and is left as it was. -/
theorem check_all_count_includes_failed (worlds : ℕ → World) (sv : Server) (k : ℕ)
    (p : Product) (hk : sv.products[k]? = some p)
    (hfail : ∀ (src : Source) (url : String), truthyUrl (src.url p) = some url →
      src.get (worlds k) url = none) :
    (checkAllPrices worlds sv).2.checked = sv.products.length ∧
    k < (checkAllPrices worlds sv).2.checked ∧
    (checkAllPrices worlds sv).1.products[k]? = some p := by
  have hlen : (checkAllPrices worlds sv).2.checked = sv.products.length :=
    length_products_checkEach worlds sv.products 0 [] sv.priceHistory
  refine ⟨hlen, ?_, ?_⟩
  · rw [hlen]
    exact (List.getElem?_eq_some.1 hk).1
  · exact failed_product_checkEach worlds sv.products 0 [] sv.priceHistory k p hk
      fun src url hu => by simpa using hfail src url hu

/-- C13 amended, on the sweep over phone, tablet and camera: the tablet, at
    position 1 with its requests failing, is within the count of 3. -/
theorem check_all_count_includes_failed_witness :
    (checkAllPrices sweepWorlds shop).2.checked = 3 ∧
    1 < (checkAllPrices sweepWorlds shop).2.checked :=
  have h := check_all_count_includes_failed sweepWorlds shop 1 tablet rfl
    fun src _ _ => by cases src <;> rfl
  ⟨h.1, h.2.1⟩

/-- C14. After a single-product check that answers with alerts, and after a
    check-all, the alert store is the store before followed by the alerts of
    the response, in their order. -/
theorem returned_alerts_are_persisted (w : World) (worlds : ℕ → World) (sv : Server)
    (id : String) :
    (∀ (product : Product) (alerts : List Alert),
      (checkPrice w sv id).2 = CheckPriceResponse.ok product alerts →
      (checkPrice w sv id).1.alerts = sv.alerts ++ alerts) ∧
    (checkAllPrices worlds sv).1.alerts = sv.alerts ++ (checkAllPrices worlds sv).2.alerts := by
  refine ⟨fun product alerts hok => ?_, rfl⟩
  unfold checkPrice at hok ⊢
  split at hok
  · cases hok
  · rename_i found hfound
    simp only [CheckPriceResponse.ok.injEq] at hok
    simp only [hfound, hok.2]

/-- C14 on the shop: the single check of the phone and the sweep both append
    their alerts to the store. -/
theorem returned_alerts_are_persisted_witness :
    ((checkPrice (amazonShows "60,000" 1700021600000) shop "1700000000000").1.alerts.map
      fun a => a.id) = ["1700021600000-amazon"] ∧
    ((checkAllPrices sweepWorlds shop).1.alerts.map fun a => a.id) =
      ["1700021600000-amazon", "1700021602000-flipkart"] :=
  have h := returned_alerts_are_persisted (amazonShows "60,000" 1700021600000) sweepWorlds shop
    "1700000000000"
  ⟨(congrArg (List.map fun a => a.id)
      (h.1 (checkPriceDrops (amazonShows "60,000" 1700021600000)
        (phone (JSVal.num (JSNum.fin 80000)) (JSVal.num (JSNum.fin 79000)))
        (fun _ => none)).product
        (checkPriceDrops (amazonShows "60,000" 1700021600000)
        (phone (JSVal.num (JSNum.fin 80000)) (JSVal.num (JSNum.fin 79000)))
        (fun _ => none)).alerts rfl)).trans (by decide!),
   (congrArg (List.map fun a => a.id) h.2).trans (by decide!)⟩

/-- C15. A single-product check for an id that no tracked product has answers
    404 `Product not found` and leaves products, history and alert store as
    they were; for an id that some tracked product has it answers with a
    product and alerts. -/
theorem check_price_not_found (w : World) (sv : Server) (id : String) :
    ((∀ p ∈ sv.products, p.id ≠ id) →
      checkPrice w sv id = (sv, CheckPriceResponse.error 404 "Product not found")) ∧
    ((∃ p ∈ sv.products, p.id = id) →
      ∃ (product : Product) (alerts : List Alert),
        (checkPrice w sv id).2 = CheckPriceResponse.ok product alerts) := by
  constructor
  · intro hnone
    have hfind : (sv.products.find? fun p => p.id == id) = none :=
      List.find?_eq_none.2 fun p hp => by simpa using hnone p hp
    simp only [checkPrice, hfind]
  · rintro ⟨p, hp, hid⟩
    cases hfind : sv.products.find? fun p => p.id == id with
    | none =>
      have := List.find?_eq_none.1 hfind p hp
      simp [hid] at this
    | some found =>
      exact ⟨(checkPriceDrops w found sv.priceHistory).product,
        (checkPriceDrops w found sv.priceHistory).alerts, by simp only [checkPrice, hfind]⟩

/-- C15 on the shop: the id `42` is unknown, the phone's id is known. -/
theorem check_price_not_found_witness :
    (checkPrice (sweepWorlds 1) shop "42").2 = CheckPriceResponse.error 404 "Product not found" ∧
    ∃ (product : Product) (alerts : List Alert),
      (checkPrice (amazonShows "60,000" 1700021600000) shop "1700000000000").2 =
        CheckPriceResponse.ok product alerts :=
  ⟨congrArg Prod.snd ((check_price_not_found (sweepWorlds 1) shop "42").1 (by decide)),
   (check_price_not_found (amazonShows "60,000" 1700021600000) shop "1700000000000").2
     (by decide)⟩

/-! ## The extractor's rules -/

theorem scanSelectors_cons (doc : Doc) (selector : String) (rest : List String) (price : JSVal) :
    scanSelectors doc (selector :: rest) price =
      match ruleValue doc selector with
      | none => scanSelectors doc rest price
      | some v => if isPositivePrice v then v else scanSelectors doc rest v := by
  simp only [scanSelectors, ruleValue]
  split <;> rfl

theorem ruleValue_congr (doc doc' : Doc) (selector : String) (h : doc' selector = doc selector) :
    ruleValue doc' selector = ruleValue doc selector := by
  simp only [ruleValue, h]

/-- The loop returns the value of the first rule that is positive, whatever
    the rules after it and the starting value are. -/
theorem scanSelectors_first_positive (doc : Doc) (selector : String) (value : JSVal)
    (after : List String) (hvalue : ruleValue doc selector = some value)
    (hpos : isPositivePrice value = true) :
    ∀ (before : List String) (init : JSVal),
      (∀ s ∈ before, ∀ v, ruleValue doc s = some v → isPositivePrice v = false) →
      scanSelectors doc (before ++ selector :: after) init = value := by
  intro before
  induction before with
  | nil =>
    intro init _
    simp [scanSelectors_cons, hvalue, hpos]
  | cons s rest ih =>
    intro init hbefore
    have hrest : ∀ t ∈ rest, ∀ v, ruleValue doc t = some v → isPositivePrice v = false :=
      fun t ht => hbefore t (List.mem_cons_of_mem _ ht)
    rw [List.cons_append, scanSelectors_cons]
    cases hs : ruleValue doc s with
    | none => exact ih init hrest
    | some v =>
      have hv := hbefore s (List.mem_cons_self _ _) v hs
      simp only [hv, Bool.false_eq_true, if_false]
      exact ih v hrest

/-- The loop over rules none of which assigns anything returns the starting
    value. -/
theorem scanSelectors_of_all_none (doc : Doc) :
    ∀ (selectors : List String) (init : JSVal),
      (∀ s ∈ selectors, ruleValue doc s = none) → scanSelectors doc selectors init = init := by
  intro selectors
  induction selectors with
  | nil => intro init _; rfl
  | cons s rest ih =>
    intro init h
    rw [scanSelectors_cons, h s (List.mem_cons_self _ _)]
    exact ih init fun t ht => h t (List.mem_cons_of_mem _ ht)

theorem scrape_of_doc (src : Source) (w : World) (url : String) (doc : Doc)
    (hget : src.get w url = some doc) :
    src.scrape w url = scanSelectors doc src.selectors JSVal.null := by
  cases src <;>
    simp_all [Source.get, Source.scrape, Source.selectors, scrapeAmazonPrice,
      scrapeFlipkartPrice]

/-- C16. When the page of a source is `doc`, the rules before `selector` in
    the source's list assign no positive value and the rule of `selector`
    assigns the positive `value`, the scraper returns `value`; so does it on
    every page that agrees with `doc` on these rules, whatever the later rules
    find there.  And on a page where only the third rule of the list finds a
    text, the scraper returns the value of that rule. -/
theorem extractor_returns_first_positive_rule :
    (∀ (src : Source) (w : World) (url : String) (doc doc' : Doc)
        (before after : List String) (selector : String) (value : JSVal),
      src.selectors = before ++ selector :: after →
      (∀ s ∈ before, ∀ v, ruleValue doc s = some v → isPositivePrice v = false) →
      ruleValue doc selector = some value → isPositivePrice value = true →
      (∀ s ∈ before ++ [selector], doc' s = doc s) →
      src.get w url = some doc' →
      src.scrape w url = value) ∧
    (∀ (src : Source) (w : World) (url : String) (doc : Doc) (third : String) (value : JSVal),
      src.selectors[2]? = some third →
      (∀ s ∈ src.selectors, s ≠ third → ruleValue doc s = none) →
      ruleValue doc third = some value →
      src.get w url = some doc →
      src.scrape w url = value) := by
  constructor
  · intro src w url doc doc' before after selector value hsel hbefore hvalue hpos hagree hget
    rw [scrape_of_doc src w url doc' hget, hsel]
    have hvalue' : ruleValue doc' selector = some value := by
      rw [ruleValue_congr doc doc' selector (hagree selector (by simp))]
      exact hvalue
    refine scanSelectors_first_positive doc' selector value after hvalue' hpos before _ ?_
    intro s hs v hv
    rw [ruleValue_congr doc doc' s (hagree s (by simp [hs]))] at hv
    exact hbefore s hs v hv
  · intro src w url doc third value hthird hothers hvalue hget
    rw [scrape_of_doc src w url doc hget]
    have hrest : ∀ (rest : List String) (init : JSVal), (∀ s ∈ rest, ruleValue doc s = none) →
        scanSelectors doc (third :: rest) init = value := by
      intro rest init hnone
      rw [scanSelectors_cons, hvalue]
      by_cases hp : isPositivePrice value = true
      · simp [hp]
      · simp only [hp, if_false]
        exact scanSelectors_of_all_none doc rest value hnone
    cases src with
    | amazon =>
      simp only [Source.selectors, amazonSelectors, List.getElem?_cons_succ,
        List.getElem?_cons_zero, Option.some.injEq] at hthird hothers ⊢
      subst hthird
      rw [scanSelectors_cons, hothers ".a-price-whole" (by simp) (by decide), scanSelectors_cons,
        hothers "#priceblock_ourprice" (by simp) (by decide)]
      exact hrest _ _ fun s hs => hothers s (by simp at hs ⊢; tauto) (by
        rcases List.mem_cons.1 hs with h | h
        · rw [h]; decide
        · simp at h; rw [h]; decide)
    | flipkart =>
      simp only [Source.selectors, flipkartSelectors, List.getElem?_cons_succ,
        List.getElem?_cons_zero, Option.some.injEq] at hthird hothers ⊢
      subst hthird
      rw [scanSelectors_cons, hothers "._30jeq3._16Jk6d" (by simp) (by decide), scanSelectors_cons,
        hothers "._30jeq3" (by simp) (by decide)]
      exact hrest _ _ fun s hs => hothers s (by simp at hs ⊢; tauto) (by
        simp at hs; rw [hs]; decide)

/-- C16 on pages where only the third rule finds a text: the Amazon page has
    ` ₹ 60,000.00 ` under `#priceblock_dealprice`, the Flipkart page `₹499`
    under `.CEmiEU div`. -/
theorem extractor_returns_first_positive_rule_witness :
    scrapeAmazonPrice (fun _ => some (pageWith "#priceblock_dealprice" " ₹ 60,000.00 "))
      "https://www.amazon.in/dp/B0PHONE" = JSVal.num (JSNum.fin 60000) ∧
    scrapeFlipkartPrice (fun _ => some (pageWith ".CEmiEU div" "₹499"))
      "https://www.flipkart.com/phone/p/itm1" = JSVal.num (JSNum.fin 499) :=
  ⟨extractor_returns_first_positive_rule.1 Source.amazon
      (worldAt (some (pageWith "#priceblock_dealprice" " ₹ 60,000.00 ")) none 1700021600000)
      "https://www.amazon.in/dp/B0PHONE"
      (pageWith "#priceblock_dealprice" " ₹ 60,000.00 ")
      (pageWith "#priceblock_dealprice" " ₹ 60,000.00 ")
      [".a-price-whole", "#priceblock_ourprice"]
      [".a-price .a-offscreen", "#price_inside_buybox"] "#priceblock_dealprice"
      (JSVal.num (JSNum.fin 60000)) rfl
      (fun s hs v hv => by
        simp only [List.mem_cons, List.mem_singleton, List.not_mem_nil, or_false] at hs
        rcases hs with rfl | rfl
        · rw [show ruleValue (pageWith "#priceblock_dealprice" " ₹ 60,000.00 ")
            ".a-price-whole" = none by decide!] at hv
          cases hv
        · rw [show ruleValue (pageWith "#priceblock_dealprice" " ₹ 60,000.00 ")
            "#priceblock_ourprice" = none by decide!] at hv
          cases hv)
      (by decide!) (by decide!) (fun _ _ => rfl) rfl,
   extractor_returns_first_positive_rule.2 Source.flipkart
      (worldAt none (some (pageWith ".CEmiEU div" "₹499")) 1700021600000)
      "https://www.flipkart.com/phone/p/itm1" (pageWith ".CEmiEU div" "₹499") ".CEmiEU div"
      (JSVal.num (JSNum.fin 499)) rfl
      (fun s hs hne => by
        simp only [Source.selectors, flipkartSelectors, List.mem_cons, List.mem_singleton,
          List.not_mem_nil, or_false] at hs
        rcases hs with rfl | rfl | rfl | rfl
        · decide!
        · decide!
        · exact absurd rfl hne
        · decide!)
      (by decide!) rfl⟩

theorem parseFloat_nan_or_nonneg (s : List Char) :
    parseFloat s = JSNum.nan ∨ ∃ q : ℚ, 0 ≤ q ∧ parseFloat s = JSNum.fin q := by
  unfold parseFloat
  simp only
  split
  · exact Or.inl rfl
  · exact Or.inr ⟨_, by positivity, rfl⟩

/-- A value a rule assigns without it being positive is `NaN` or zero. -/
theorem ruleValue_not_positive (doc : Doc) (selector : String) (v : JSVal)
    (hv : ruleValue doc selector = some v) (hnot : isPositivePrice v = false) :
    v = JSVal.num JSNum.nan ∨ v = JSVal.num (JSNum.fin 0) := by
  unfold ruleValue at hv
  simp only at hv
  split at hv
  · cases hv
  · simp only [Option.some.injEq] at hv
    subst hv
    rcases parseFloat_nan_or_nonneg (stripNonNumeric (trim (doc selector).toList)) with h | ⟨q, hq, h⟩
    · exact Or.inl (by rw [h])
    · rw [h] at hnot ⊢
      have hq0 : ¬ 0 < q := fun hpos => by
        rw [(isPositivePrice_fin q).2 hpos] at hnot
        exact Bool.noConfusion hnot
      have : q = 0 := le_antisymm (not_lt.1 hq0) hq
      rw [this]
      exact Or.inr rfl

/-- The loop over rules none of which assigns a positive value, started from
    `null`, `NaN` or zero, ends with `null`, `NaN` or zero. -/
theorem scanSelectors_not_found (doc : Doc) :
    ∀ (selectors : List String) (init : JSVal),
      (init = JSVal.null ∨ init = JSVal.num JSNum.nan ∨ init = JSVal.num (JSNum.fin 0)) →
      (∀ s ∈ selectors, ∀ v, ruleValue doc s = some v → isPositivePrice v = false) →
      (scanSelectors doc selectors init = JSVal.null ∨
        scanSelectors doc selectors init = JSVal.num JSNum.nan ∨
        scanSelectors doc selectors init = JSVal.num (JSNum.fin 0)) := by
  intro selectors
  induction selectors with
  | nil => intro init hinit _; exact hinit
  | cons s rest ih =>
    intro init hinit hall
    have hrest : ∀ t ∈ rest, ∀ v, ruleValue doc t = some v → isPositivePrice v = false :=
      fun t ht => hall t (List.mem_cons_of_mem _ ht)
    rw [scanSelectors_cons]
    cases hs : ruleValue doc s with
    | none => exact ih init hinit hrest
    | some v =>
      have hv := hall s (List.mem_cons_self _ _) v hs
      simp only [hv, Bool.false_eq_true, if_false]
      exact ih v (Or.inr (ruleValue_not_positive doc s v hs hv)) hrest

theorem isPositivePrice_of_not_found (v : JSVal)
    (h : v = JSVal.null ∨ v = JSVal.num JSNum.nan ∨ v = JSVal.num (JSNum.fin 0)) :
    isPositivePrice v = false := by
  rcases h with rfl | rfl | rfl <;> simp [isPositivePrice, JSVal.truthy, JSNum.truthy]

/-- Without a digit in it a text parses to `NaN`. -/
theorem parseFloat_of_no_digit (s : List Char) (h : ∀ c ∈ s, c.isDigit = false) :
    parseFloat s = JSNum.nan := by
  unfold parseFloat
  cases s with
  | nil => simp
  | cons c t =>
    have hc : c.isDigit = false := h c (List.mem_cons_self _ _)
    have ht : t.takeWhile Char.isDigit = [] := by
      cases t with
      | nil => rfl
      | cons d u =>
        have hd : d.isDigit = false := h d (by simp)
        simp [List.takeWhile, hd]
    have hm : (match c :: t with
        | '.' :: t => List.takeWhile Char.isDigit t
        | _ => []) = [] := by
      split
      · rename_i t' heq
        simp only [List.cons.injEq] at heq
        rw [← heq.2]
        exact ht
      · rfl
    simp only [List.takeWhile, List.dropWhile, hc, hm]
    rfl

theorem mem_of_mem_trim (s : List Char) (c : Char) (h : c ∈ trim s) : c ∈ s := by
  unfold trim at h
  rw [List.mem_reverse] at h
  have h1 := (List.dropWhile_sublist isJsWhitespace).subset h
  rw [List.mem_reverse] at h1
  exact (List.dropWhile_sublist isJsWhitespace).subset h1

/-- A rule whose text has no digit assigns nothing or `NaN`. -/
theorem ruleValue_of_no_digit (doc : Doc) (selector : String)
    (h : ∀ c ∈ (doc selector).toList, c.isDigit = false) (v : JSVal)
    (hv : ruleValue doc selector = some v) : v = JSVal.num JSNum.nan := by
  unfold ruleValue at hv
  simp only at hv
  split at hv
  · cases hv
  · simp only [Option.some.injEq] at hv
    rw [← hv, parseFloat_of_no_digit]
    intro c hc
    exact h c (mem_of_mem_trim _ c (List.mem_filter.1 hc).1)

theorem ruleValue_of_empty (doc : Doc) (selector : String) (h : doc selector = "") :
    ruleValue doc selector = none := by
  simp [ruleValue, h, trim]

/-- Blanking the text of a rule that has no digit changes neither whether the
    loop ends on a positive value nor which one. -/
theorem scanSelectors_blank_rule (doc : Doc) (selector : String)
    (hno : ∀ c ∈ (doc selector).toList, c.isDigit = false) :
    ∀ (selectors : List String) (p p' : JSVal),
      isPositivePrice p = false → isPositivePrice p' = false →
      isPositivePrice (scanSelectors doc selectors p) =
        isPositivePrice (scanSelectors (fun k => if k = selector then "" else doc k)
          selectors p') ∧
      (isPositivePrice (scanSelectors doc selectors p) = true →
        scanSelectors doc selectors p =
          scanSelectors (fun k => if k = selector then "" else doc k) selectors p') := by
  intro selectors
  induction selectors with
  | nil =>
    intro p p' hp hp'
    simp only [scanSelectors]
    exact ⟨hp.trans hp'.symm, fun h => by rw [hp] at h; exact Bool.noConfusion h⟩
  | cons k rest ih =>
    intro p p' hp hp'
    rw [scanSelectors_cons, scanSelectors_cons]
    by_cases hk : k = selector
    · subst hk
      rw [ruleValue_of_empty (fun j => if j = k then "" else doc j) k (if_pos rfl)]
      cases hv : ruleValue doc k with
      | none => exact ih p p' hp hp'
      | some v =>
        have hnan := ruleValue_of_no_digit doc k hno v hv
        have hvn : isPositivePrice v = false := by
          rw [hnan]; simp [isPositivePrice, JSVal.truthy, JSNum.truthy]
        simp only [hvn, Bool.false_eq_true, if_false]
        exact ih v p' hvn hp'
    · rw [ruleValue_congr doc (fun j => if j = selector then "" else doc j) k (if_neg hk)]
      cases hv : ruleValue doc k with
      | none => exact ih p p' hp hp'
      | some v =>
        by_cases hpos : isPositivePrice v = true
        · simp [hpos]
        · have hvn : isPositivePrice v = false := by simpa using hpos
          simp only [hvn, Bool.false_eq_true, if_false]
          exact ih v v hvn hvn

/-- C17. When no rule of a source assigns a positive value on the fetched
    page, or the fetch fails, the scraper returns `null`, `NaN` or zero, none
    of which passes `newPrice && newPrice > 0`.  A rule whose markup is absent
    assigns nothing and a rule whose text has no digit assigns at most `NaN`;
    and a page on which such a text is blanked gives a result that is positive
    exactly when the original result is, and then the same. -/
theorem extractor_not_found :
    (∀ (src : Source) (w : World) (url : String),
      (∀ doc, src.get w url = some doc →
        ∀ s ∈ src.selectors, ∀ v, ruleValue doc s = some v → isPositivePrice v = false) →
      (src.scrape w url = JSVal.null ∨ src.scrape w url = JSVal.num JSNum.nan ∨
        src.scrape w url = JSVal.num (JSNum.fin 0)) ∧
      isPositivePrice (src.scrape w url) = false) ∧
    (∀ (doc : Doc) (s : String),
      (doc s = "" → ruleValue doc s = none) ∧
      ((∀ c ∈ (doc s).toList, c.isDigit = false) →
        ∀ v, ruleValue doc s = some v → v = JSVal.num JSNum.nan)) ∧
    (∀ (src : Source) (w w' : World) (url : String) (doc : Doc) (s : String),
      src.get w url = some doc →
      src.get w' url = some (fun k => if k = s then "" else doc k) →
      (∀ c ∈ (doc s).toList, c.isDigit = false) →
      isPositivePrice (src.scrape w url) = isPositivePrice (src.scrape w' url) ∧
      (isPositivePrice (src.scrape w url) = true → src.scrape w url = src.scrape w' url)) := by
  refine ⟨fun src w url hall => ?_, fun doc s =>
    ⟨ruleValue_of_empty doc s, ruleValue_of_no_digit doc s⟩, ?_⟩
  · have hres : src.scrape w url = JSVal.null ∨ src.scrape w url = JSVal.num JSNum.nan ∨
        src.scrape w url = JSVal.num (JSNum.fin 0) := by
      cases hget : src.get w url with
      | none => exact Or.inl (scrape_of_failed_fetch src w url hget)
      | some doc =>
        rw [scrape_of_doc src w url doc hget]
        exact scanSelectors_not_found doc src.selectors JSVal.null (Or.inl rfl) (hall doc hget)
    exact ⟨hres, isPositivePrice_of_not_found _ hres⟩
  · intro src w w' url doc s hget hget' hno
    rw [scrape_of_doc src w url doc hget, scrape_of_doc src w' url _ hget']
    exact scanSelectors_blank_rule doc s hno src.selectors JSVal.null JSVal.null rfl rfl

/-- C17 on three Flipkart pages: none of the markup, `Currently unavailable`
    under `._30jeq3`, and `₹0` under `._30jeq3`: the scraper returns `null`,
    `NaN` and zero, and none passes the test. -/
theorem extractor_not_found_witness :
    scrapeFlipkartPrice (fun _ => some fun _ => "") "u" = JSVal.null ∧
    scrapeFlipkartPrice (fun _ => some (pageWith "._30jeq3" "Currently unavailable")) "u" =
      JSVal.num JSNum.nan ∧
    scrapeFlipkartPrice (fun _ => some (pageWith "._30jeq3" "₹0")) "u" =
      JSVal.num (JSNum.fin 0) ∧
    isPositivePrice (Source.flipkart.scrape
      (worldAt none (some (pageWith "._30jeq3" "₹0")) 1700021600000) "u") = false :=
  ⟨by decide!, by decide!, by decide!,
   (extractor_not_found.1 Source.flipkart
      (worldAt none (some (pageWith "._30jeq3" "₹0")) 1700021600000) "u"
      (fun doc hget s hs v hv => by
        have hdoc : doc = pageWith "._30jeq3" "₹0" := (Option.some.inj hget).symm
        subst hdoc
        simp only [Source.selectors, flipkartSelectors, List.mem_cons, List.mem_singleton,
          List.not_mem_nil, or_false] at hs
        rcases hs with rfl | rfl | rfl | rfl
        · rw [show ruleValue (pageWith "._30jeq3" "₹0") "._30jeq3._16Jk6d" = none by decide!] at hv
          cases hv
        · rw [show ruleValue (pageWith "._30jeq3" "₹0") "._30jeq3" =
            some (JSVal.num (JSNum.fin 0)) by decide!] at hv
          cases hv
          decide!
        · rw [show ruleValue (pageWith "._30jeq3" "₹0") ".CEmiEU div" = none by decide!] at hv
          cases hv
        · rw [show ruleValue (pageWith "._30jeq3" "₹0") "._1vC4OE" = none by decide!] at hv
          cases hv)).2⟩

/-! ## Parsing a price text -/

/-- C19 on the code: a check of the tablet, tracked on Flipkart only and
    created at `1700000000500` with Flipkart price 1000, that extracts 900
    leaves a timeline of the same length in which the entry recorded at
    creation is no longer present: its Flipkart price now reads 900. -/
theorem flipkart_only_check_rewrites_entry :
    (initialHistory tablet 1700000000500).timeline tablet.id =
      [{ date := 1700000000500, amazonPrice := JSVal.num (JSNum.fin 45000),
         flipkartPrice := JSVal.num (JSNum.fin 1000) }] ∧
    (checkPriceDrops (worldAt none (some (pageWith "._30jeq3" "₹900")) 1700021600000) tablet
        (initialHistory tablet 1700000000500)).priceHistory.timeline tablet.id =
      [{ date := 1700000000500, amazonPrice := JSVal.num (JSNum.fin 45000),
         flipkartPrice := JSVal.num (JSNum.fin 900) }] ∧
    ({ date := 1700000000500, amazonPrice := JSVal.num (JSNum.fin 45000),
       flipkartPrice := JSVal.num (JSNum.fin 1000) } : HistoryEntry) ∉
      (checkPriceDrops (worldAt none (some (pageWith "._30jeq3" "₹900")) 1700021600000) tablet
        (initialHistory tablet 1700000000500)).priceHistory.timeline tablet.id := by
  decide!

end PriceTracker
